import Mathlib

/-!
Shallow embedding of the FDC+ serial drive simulator protocol engine
(`fdc-sim-gui.cpp` / `fdc-sim-gui.h`): checksum unit, frame construction,
the STAT/READ/WRIT transactions with their wait loops, and theorems about
the claims of the specification.
-/

namespace FdcSim

/-! ## Constants from fdc-sim-gui.h -/

def MAX_DRIVE : Nat := 4
def CMDBUF_SIZE : Nat := 10
def COMMAND_LENGTH : Nat := 8
def TRACK_MAX_5 : Nat := 35
def TRACK_MAX_8 : Nat := 77
def TRACK_LEN_5 : Nat := 137 * 16
def TRACK_LEN_8 : Nat := 137 * 32
def TRACKBUF_LEN : Nat := TRACK_LEN_8
def TRACKBUF_LEN_CRC : Nat := TRACKBUF_LEN + 2
def STAT_OK : Nat := 0
def STAT_NOT_READY : Nat := 1
def STAT_CHECKSUM_ERR : Nat := 2
def STAT_WRITE_ERR : Nat := 3

/-! ## Checksum unit (FDCDialog::calcChecksum)

`quint16 checksum = 0; for (i = 0; i < length; i++) checksum += data[i];`
The accumulator is a 16-bit unsigned integer, so each addition wraps
modulo 65536.  Bytes are modelled as `Nat` values. -/

def calcChecksum (data : List Nat) (length : Nat) : Nat :=
  (data.take length).foldl (fun checksum b => (checksum + b) % 65536) 0

/-! ## Frame model (tcommand_t)

The union overlays a 10-byte buffer with 4 command characters and three
little-endian 16-bit words (param1/rcode, param2/rdata, checksum). -/

def word16Bytes (w : Nat) : List Nat := [w % 256, w / 256 % 256]

def bytesToWord (lo hi : Nat) : Nat := lo % 256 + hi % 256 * 256

structure TCommand where
  command : List Nat
  param1 : Nat
  param2 : Nat
  checksum : Nat
deriving DecidableEq

def TCommand.asBytes (c : TCommand) : List Nat :=
  c.command ++ word16Bytes c.param1 ++ word16Bytes c.param2 ++ word16Bytes c.checksum

/-- ASCII bytes of the tag "STAT". -/
def statTag : List Nat := [83, 84, 65, 84]

/-- ASCII bytes of the tag "READ". -/
def readTag : List Nat := [82, 69, 65, 68]

/-- ASCII bytes of the tag "WRIT". -/
def writTag : List Nat := [87, 82, 73, 84]

/-- ASCII bytes of the tag "WSTA". -/
def wstaTag : List Nat := [87, 83, 84, 65]

/-- Fill the command buffer and compute its checksum over the first
`COMMAND_LENGTH` bytes, as each of statCmd/readCmd/writCmd does via
`cmdBuf.checksum = calcChecksum(cmdBuf.asBytes, COMMAND_LENGTH)`. -/
def mkCommand (tag : List Nat) (param1 param2 : Nat) : TCommand :=
  { command := tag, param1 := param1, param2 := param2,
    checksum :=
      calcChecksum (tag ++ word16Bytes param1 ++ word16Bytes param2) COMMAND_LENGTH }

/-! ## Field accessors of a received 10-byte frame -/

def frameTag (bs : List Nat) : List Nat := bs.take 4

def frameRcode (bs : List Nat) : Nat := bytesToWord (bs.getD 4 0) (bs.getD 5 0)

def frameRdata (bs : List Nat) : Nat := bytesToWord (bs.getD 6 0) (bs.getD 7 0)

def frameChecksumField (bs : List Nat) : Nat := bytesToWord (bs.getD 8 0) (bs.getD 9 0)

/-! ## STAT request construction (FDCDialog::statCmd, lines 387-400)

`cmdBuf.param1 = driveNum;` followed by
`for (d = 0; d < MAX_DRIVE; d++) cmdBuf.param1 |= (headStatus[d] != 0) << d;`
and `cmdBuf.param2 = 0;`. -/

def statParam1 (driveNum : Nat) (headStatus : Nat → Nat) : Nat :=
  (List.range MAX_DRIVE).foldl
    (fun param1 d => param1 ||| ((if headStatus d ≠ 0 then 1 else 0) <<< d)) driveNum

def statRequest (driveNum : Nat) (headStatus : Nat → Nat) : TCommand :=
  mkCommand statTag (statParam1 driveNum headStatus) 0

/-! ## READ/WRIT request construction (lines 450-451 and 503-504)

`cmdBuf.param1 = trackNum | (driveNum << 12);` — the operands are promoted
to `int`, combined, and the store into the `quint16` member truncates
modulo 65536.  `cmdBuf.param2 = trackLen;` (both sides `quint16`). -/

def rwParam1 (trackNum driveNum : Nat) : Nat := (trackNum ||| driveNum <<< 12) % 65536

def readRequest (trackNum driveNum trackLen : Nat) : TCommand :=
  mkCommand readTag (rwParam1 trackNum driveNum) trackLen

def writRequest (trackNum driveNum trackLen : Nat) : TCommand :=
  mkCommand writTag (rwParam1 trackNum driveNum) trackLen

/-! ## Lemmas about the checksum -/

lemma foldl_mod_eq (l : List Nat) :
    ∀ acc : Nat,
      l.foldl (fun c b => (c + b) % 65536) (acc % 65536) = (acc + l.sum) % 65536 := by
  induction l with
  | nil => intro acc; simp
  | cons b t ih =>
      intro acc
      simp only [List.foldl_cons, List.sum_cons]
      rw [Nat.mod_add_mod, ih (acc + b), Nat.add_assoc]

lemma calcChecksum_eq_sum (data : List Nat) (length : Nat) :
    calcChecksum data length = (data.take length).sum % 65536 := by
  have h := foldl_mod_eq (data.take length) 0
  simpa [calcChecksum] using h

lemma lor_shift12 (t d : Nat) (ht : t < 4096) : t ||| d <<< 12 = t + d * 4096 := by
  have h2 : t < 2 ^ 12 := by norm_num at ht ⊢; exact ht
  have h := (Nat.mul_add_lt_is_or h2 d).symm
  rw [Nat.lor_comm, Nat.shiftLeft_eq, Nat.mul_comm d (2 ^ 12), h]
  norm_num
  omega

/-! ## Response-code dispatch

The `switch (cmdBuf.rcode)` in writCmd's refusal branch (lines 536-549)
and in its WSTA branch (lines 572-588). -/

inductive RName
  | ok
  | notReady
  | checksumErr
  | writeErr
  | unknown
deriving DecidableEq

def rcodeSwitch (rcode : Nat) : RName :=
  if rcode = STAT_NOT_READY then .notReady
  else if rcode = STAT_CHECKSUM_ERR then .checksumErr
  else if rcode = STAT_WRITE_ERR then .writeErr
  else .unknown

def wstaSwitch (rcode : Nat) : RName :=
  if rcode = STAT_OK then .ok
  else if rcode = STAT_NOT_READY then .notReady
  else if rcode = STAT_CHECKSUM_ERR then .checksumErr
  else if rcode = STAT_WRITE_ERR then .writeErr
  else .unknown

/-! ## Observable messages

One constructor per `messageLabel->setText` / `QMessageBox::critical`
call site in statCmd, readCmd and writCmd, carrying the interpolated
arguments. -/

inductive Msg
  | serialNotOpen
  | invalidDrive
  | readErr
  | badStat (tag : List Nat)
  | statResponseShown (rdata : Nat)
  | trackReceived (len : Nat)
  | shortTrack (got : Int) (expected : Nat)
  | badWrit (tag : List Nat)
  | writRefused (code : RName)
  | badWsta (tag : List Nat)
  | wstaStatus (code : RName)
deriving DecidableEq

/-! ## The wait loops

statCmd (lines 405-409) and writCmd (lines 511-515 and 556-560) wait for
a 10-byte response with
`do { bytesAvail = waitForReadyRead(500);`
`     cmdBufIdx += read(&cmdBuf.asBytes[cmdBufIdx], CMDBUF_SIZE-cmdBufIdx);`
`} while (cmdBufIdx < CMDBUF_SIZE && cmdBufIdx != -1);`
The environment is modelled as a strategy `reads` giving, for each
iteration, the return value of `read` for the requested maximum count.
The loop is driven by fuel; `none` means the fuel ran out with the loop
still running. -/

def statWaitLoop (reads : Nat → Int → Int) : Nat → Int → Option Int
  | 0, _ => none
  | fuel + 1, cmdBufIdx =>
      let idx := cmdBufIdx + reads 0 ((CMDBUF_SIZE : Int) - cmdBufIdx)
      if idx < (CMDBUF_SIZE : Int) ∧ idx ≠ -1 then
        statWaitLoop (fun n => reads (n + 1)) fuel idx
      else some idx

/-- The READ bulk-receive loop (lines 459-462):
`do { bytesAvail = serialPort->waitForReadyRead(100);`
`     trkBufIdx += read(&trackBuf[trkBufIdx], TRACKBUF_LEN_CRC-trkBufIdx);`
`} while (trkBufIdx < trackLen + 2 && bytesAvail);`
Besides the final index, the model records each write into `trackBuf`
as a pair (offset, count). -/
def readLoop (avail : Nat → Bool) (reads : Nat → Int → Int) (lim : Int) :
    Nat → Int → Option Int × List (Int × Int)
  | 0, _ => (none, [])
  | fuel + 1, trkBufIdx =>
      let r := reads 0 ((TRACKBUF_LEN_CRC : Int) - trkBufIdx)
      let idx := trkBufIdx + r
      if idx < lim ∧ avail 0 then
        let rest := readLoop (fun n => avail (n + 1)) (fun n => reads (n + 1)) lim fuel idx
        (rest.1, (trkBufIdx, r) :: rest.2)
      else (some idx, [(trkBufIdx, r)])

/-! ## The three transactions

The transport is abstracted: each 10-byte wait's outcome is an input
(`none` for the `cmdBufIdx == -1` read-error exit, `some bs` for a fully
received 10-byte frame), and the READ bulk phase's outcome is the final
`trkBufIdx` together with the `trackBuf` contents.  The buffer/index
dynamics themselves are `statWaitLoop` / `readLoop` above. -/

structure StatResult where
  writes : List (List Nat)
  msg : Option Msg
  cmdBufAfter : Option (List Nat)
deriving DecidableEq

/-- FDCDialog::statCmd (lines 374-422). -/
def statCmd (portOpen : Bool) (driveNum : Nat) (headStatus : Nat → Nat)
    (statAuto : Bool) (recv : Option (List Nat)) : StatResult :=
  if portOpen = false then ⟨[], some .serialNotOpen, none⟩
  else
    let req := statRequest driveNum headStatus
    match recv with
    | none => ⟨[req.asBytes], some .readErr, none⟩
    | some bs =>
        if frameTag bs ≠ statTag then
          ⟨[req.asBytes], some (.badStat (frameTag bs)), some bs⟩
        else if statAuto = false then
          ⟨[req.asBytes], some (.statResponseShown (frameRdata bs)), some bs⟩
        else ⟨[req.asBytes], none, some bs⟩

structure ReadResult where
  writes : List (List Nat)
  msg : Msg
  trackNumAfter : Nat
  checksumLocal : Option Nat
  crcWordLocal : Option Nat
deriving DecidableEq

/-- FDCDialog::readCmd (lines 424-476).  `checksumLocal` and
`crcWordLocal` are the function's local variables `checksum` and `*p`
(computed in the full-reception branch and then never used). -/
def readCmd (portOpen : Bool) (driveNum trackNum trackLen : Nat)
    (finalIdx : Int) (trackBuf : List Nat) : ReadResult :=
  if portOpen = false then ⟨[], .serialNotOpen, trackNum, none, none⟩
  else if driveNum < 0 ∨ MAX_DRIVE ≤ driveNum then ⟨[], .invalidDrive, trackNum, none, none⟩
  else
    let req := readRequest trackNum driveNum trackLen
    if finalIdx = (trackLen : Int) + 2 then
      ⟨[req.asBytes], .trackReceived trackLen, trackNum,
        some (calcChecksum trackBuf TRACKBUF_LEN),
        some (bytesToWord (trackBuf.getD trackLen 0) (trackBuf.getD (trackLen + 1) 0))⟩
    else if finalIdx = -1 then ⟨[req.asBytes], .readErr, trackNum, none, none⟩
    else ⟨[req.asBytes], .shortTrack finalIdx (trackLen + 2), trackNum, none, none⟩

structure WritResult where
  writes : List (List Nat)
  msg : Msg
  waitedWsta : Bool
deriving DecidableEq

/-- FDCDialog::writCmd (lines 478-593).  `recv1` is the outcome of the
phase-1 WRIT-response wait, `recv3` of the phase-3 WSTA wait (only
reached when the data block was sent).  `waitedWsta` records whether the
WSTA wait loop was entered. -/
def writCmd (portOpen : Bool) (driveNum trackNum trackLen : Nat)
    (trackBuf : List Nat) (recv1 recv3 : Option (List Nat)) : WritResult :=
  if portOpen = false then ⟨[], .serialNotOpen, false⟩
  else if driveNum < 0 ∨ MAX_DRIVE ≤ driveNum then ⟨[], .invalidDrive, false⟩
  else
    let req := writRequest trackNum driveNum trackLen
    match recv1 with
    | none => ⟨[req.asBytes], .readErr, false⟩
    | some bs1 =>
        if frameTag bs1 ≠ writTag then ⟨[req.asBytes], .badWrit (frameTag bs1), false⟩
        else if frameRcode bs1 = STAT_OK then
          let checksum := calcChecksum trackBuf trackLen
          let block := trackBuf.take trackLen ++ [checksum % 256, checksum / 256 % 256]
          match recv3 with
          | none => ⟨[req.asBytes, block], .readErr, true⟩
          | some bs3 =>
              if frameTag bs3 ≠ wstaTag then
                ⟨[req.asBytes, block], .badWsta (frameTag bs3), true⟩
              else ⟨[req.asBytes, block], .wstaStatus (wstaSwitch (frameRcode bs3)), true⟩
        else ⟨[req.asBytes], .writRefused (rcodeSwitch (frameRcode bs1)), false⟩

/-! ## Claim theorems -/

/-- C8: `calcChecksum(bytes, length)` equals the sum of `bytes[0..length)`
modulo 65536 (wrapping, no saturation, no sign extension), and is invariant
under any permutation of the summed bytes; the same function serves both the
8-byte command header and the track-length data block. -/
theorem calcChecksum_is_wrapping_sum :
    (∀ (data : List Nat) (length : Nat),
        calcChecksum data length = (data.take length).sum % 65536) ∧
    (∀ l1 l2 : List Nat, l1.Perm l2 →
        calcChecksum l1 l1.length = calcChecksum l2 l2.length) := by
  refine ⟨calcChecksum_eq_sum, fun l1 l2 h => ?_⟩
  rw [calcChecksum_eq_sum, calcChecksum_eq_sum, List.take_length, List.take_length,
    h.sum_eq]

/-- Witness for C8 at concrete inputs: `[1, 2]` is a permutation of `[2, 1]`
and the checksums agree. -/
theorem calcChecksum_is_wrapping_sum_witness :
    ([1, 2] : List Nat).Perm [2, 1] ∧ calcChecksum [1, 2] 2 = calcChecksum [2, 1] 2 :=
  ⟨by decide, calcChecksum_is_wrapping_sum.2 [1, 2] [2, 1] (by decide)⟩

/-- C7: for every drive number in `[0, MAX_DRIVE)` and every track number in
12 bits, the READ and WRIT request frames carry
`field1 = trackNum | (driveNum << 12)` with the track in bits 0..11 and the
drive in bits 12..15, and `field2 = trackLen`. -/
theorem rw_request_field_encoding (driveNum trackNum trackLen : Nat)
    (hd : driveNum < MAX_DRIVE) (ht : trackNum < 4096) :
    (readRequest trackNum driveNum trackLen).param1 = (trackNum ||| driveNum <<< 12) ∧
    (readRequest trackNum driveNum trackLen).param1 % 4096 = trackNum ∧
    (readRequest trackNum driveNum trackLen).param1 / 4096 = driveNum ∧
    (readRequest trackNum driveNum trackLen).param2 = trackLen ∧
    (writRequest trackNum driveNum trackLen).param1 = (trackNum ||| driveNum <<< 12) ∧
    (writRequest trackNum driveNum trackLen).param2 = trackLen := by
  have h4 : driveNum < 4 := hd
  have h := lor_shift12 trackNum driveNum ht
  have hlt : trackNum + driveNum * 4096 < 65536 := by omega
  have hp : rwParam1 trackNum driveNum = trackNum + driveNum * 4096 := by
    rw [rwParam1, h, Nat.mod_eq_of_lt hlt]
  have hp1r : (readRequest trackNum driveNum trackLen).param1 = rwParam1 trackNum driveNum := rfl
  have hp1w : (writRequest trackNum driveNum trackLen).param1 = rwParam1 trackNum driveNum := rfl
  refine ⟨?_, ?_, ?_, rfl, ?_, rfl⟩
  · rw [hp1r, hp, h]
  · rw [hp1r, hp]; omega
  · rw [hp1r, hp]; omega
  · rw [hp1w, hp, h]

/-- Witness for C7 at the spec's concrete scenario: drive 3, track 1234. -/
theorem rw_request_field_encoding_witness :
    (3 < MAX_DRIVE ∧ 1234 < 4096) ∧
    ((readRequest 1234 3 TRACK_LEN_8).param1 = (1234 ||| 3 <<< 12) ∧
     (readRequest 1234 3 TRACK_LEN_8).param1 % 4096 = 1234 ∧
     (readRequest 1234 3 TRACK_LEN_8).param1 / 4096 = 3 ∧
     (readRequest 1234 3 TRACK_LEN_8).param2 = TRACK_LEN_8 ∧
     (writRequest 1234 3 TRACK_LEN_8).param1 = (1234 ||| 3 <<< 12) ∧
     (writRequest 1234 3 TRACK_LEN_8).param2 = TRACK_LEN_8) :=
  ⟨⟨by decide, by decide⟩,
    rw_request_field_encoding 3 1234 TRACK_LEN_8 (by decide) (by decide)⟩

/-- C4 (code evaluated at the failing input): with drive 0 selected and only
drive 1's head-load flag set, the STAT request's field1 is 2 — the head-load
bit lands in bit 1 of the LOW byte, so the low byte no longer equals the
drive number (0) and the high byte (claimed to carry the flags) is 0. -/
theorem stat_field1_head_bits_in_low_byte :
    (statRequest 0 (fun d => if d = 1 then 1 else 0)).param1 = 2 ∧
    (statRequest 0 (fun d => if d = 1 then 1 else 0)).param1 / 256 % 256 = 0 ∧
    (statRequest 0 (fun d => if d = 1 then 1 else 0)).param1 % 256 ≠ 0 := by
  decide

/-- C1 (code evaluated at failing inputs): each of the three received frames
below carries a checksum field that does NOT match the 16-bit sum of its
first 8 bytes, yet statCmd displays the STAT response as received, and
writCmd both proceeds to the bulk data phase on the invalid WRIT/OK frame
(two transport writes) and reports the WSTA status verbatim — no frame's
checksum is ever recomputed or surfaced as invalid. -/
theorem received_frames_processed_without_checksum_validation :
    calcChecksum [83, 84, 65, 84, 5, 0, 7, 0, 99, 99] 8
      ≠ frameChecksumField [83, 84, 65, 84, 5, 0, 7, 0, 99, 99] ∧
    (statCmd true 0 (fun _ => 0) false (some [83, 84, 65, 84, 5, 0, 7, 0, 99, 99])).msg
      = some (.statResponseShown 7) ∧
    calcChecksum [87, 82, 73, 84, 0, 0, 0, 0, 77, 77] 8
      ≠ frameChecksumField [87, 82, 73, 84, 0, 0, 0, 0, 77, 77] ∧
    calcChecksum [87, 83, 84, 65, 0, 0, 0, 0, 66, 66] 8
      ≠ frameChecksumField [87, 83, 84, 65, 0, 0, 0, 0, 66, 66] ∧
    (writCmd true 0 0 TRACK_LEN_5 (List.replicate TRACKBUF_LEN_CRC 0)
        (some [87, 82, 73, 84, 0, 0, 0, 0, 77, 77])
        (some [87, 83, 84, 65, 0, 0, 0, 0, 66, 66])).writes.length = 2 ∧
    (writCmd true 0 0 TRACK_LEN_5 (List.replicate TRACKBUF_LEN_CRC 0)
        (some [87, 82, 73, 84, 0, 0, 0, 0, 77, 77])
        (some [87, 83, 84, 65, 0, 0, 0, 0, 66, 66])).msg = .wstaStatus .ok := by
  decide

/-- C3 (code evaluated at the failing input): when the peer stops
transmitting — every `read` returns 0 bytes — the 10-byte response wait loop
of statCmd/writCmd (`while (cmdBufIdx < CMDBUF_SIZE && cmdBufIdx != -1)`)
never exits, no matter how many iterations it is given. -/
theorem stat_wait_loop_spins_on_silence :
    ∀ fuel, statWaitLoop (fun _ _ => 0) fuel 0 = none := by
  intro fuel
  induction fuel with
  | zero => rfl
  | succ n ih =>
      have hstep : statWaitLoop (fun _ _ => 0) (n + 1) 0
          = statWaitLoop (fun _ _ => 0) n 0 := by
        simp only [statWaitLoop, CMDBUF_SIZE]
        norm_num
      rw [hstep, ih]

/-! Concrete minidisk-geometry track buffers for the READ reception
scenario: 2192 data bytes of value 1 (sum 2192 = 0x0890), a trailing
little-endian checksum — correct in the first buffer, corrupted in the
second — and bytes beyond the 2194 received ones. -/

def miniTrackGood : List Nat :=
  List.replicate TRACK_LEN_5 1 ++ [144, 8] ++ List.replicate 2192 0

def miniTrackBad : List Nat :=
  List.replicate TRACK_LEN_5 1 ++ [145, 8] ++ List.replicate 2192 0

def miniTrackJunk : List Nat :=
  List.replicate TRACK_LEN_5 1 ++ [144, 8] ++ List.replicate 2192 9

/-- C2 (code evaluated at the failing input): on full reception of a
minidisk track (trackLen = 2192, 2194 bytes accumulated) readCmd reports
only `Received 2192 byte track` — the identical message whether the
trailing checksum is correct or corrupted — and its local checksum is
computed over the fixed `TRACKBUF_LEN` = 4384 bytes rather than the
`trackLen` received data bytes, a window on which it differs. -/
theorem readCmd_reports_no_checksum_validity :
    (readCmd true 0 0 TRACK_LEN_5 ((TRACK_LEN_5 : Int) + 2) miniTrackGood).msg
      = .trackReceived TRACK_LEN_5 ∧
    (readCmd true 0 0 TRACK_LEN_5 ((TRACK_LEN_5 : Int) + 2) miniTrackBad).msg
      = .trackReceived TRACK_LEN_5 ∧
    calcChecksum miniTrackGood TRACK_LEN_5
      = bytesToWord (miniTrackGood.getD TRACK_LEN_5 0) (miniTrackGood.getD (TRACK_LEN_5 + 1) 0) ∧
    calcChecksum miniTrackBad TRACK_LEN_5
      ≠ bytesToWord (miniTrackBad.getD TRACK_LEN_5 0) (miniTrackBad.getD (TRACK_LEN_5 + 1) 0) ∧
    (readCmd true 0 0 TRACK_LEN_5 ((TRACK_LEN_5 : Int) + 2) miniTrackJunk).checksumLocal
      = some (calcChecksum miniTrackJunk TRACKBUF_LEN) ∧
    calcChecksum miniTrackJunk TRACKBUF_LEN ≠ calcChecksum miniTrackJunk TRACK_LEN_5 := by
  have hmsg : ∀ buf : List Nat,
      (readCmd true 0 0 TRACK_LEN_5 ((TRACK_LEN_5 : Int) + 2) buf).msg
        = .trackReceived TRACK_LEN_5 := by
    intro buf
    simp [readCmd, MAX_DRIVE]
  have hsum : ∀ b v : Nat,
      calcChecksum (List.replicate TRACK_LEN_5 1 ++ [b, 8] ++ List.replicate 2192 v)
          TRACK_LEN_5 = 2192 := by
    intro b v
    rw [calcChecksum_eq_sum, List.take_append_eq_append_take, List.take_append_eq_append_take,
      List.take_replicate, List.sum_append, List.sum_append, List.sum_replicate,
      List.length_append, List.length_replicate]
    norm_num [TRACK_LEN_5]
  have hjunk : calcChecksum miniTrackJunk TRACKBUF_LEN = 22054 := by
    rw [calcChecksum_eq_sum, miniTrackJunk, List.take_append_eq_append_take,
      List.take_append_eq_append_take, List.take_replicate, List.sum_append, List.sum_append,
      List.sum_replicate, List.length_append, List.length_replicate]
    norm_num [TRACK_LEN_5, TRACKBUF_LEN, TRACK_LEN_8]
  have hget : ∀ b v : Nat,
      (List.replicate TRACK_LEN_5 1 ++ [b, 8] ++ List.replicate 2192 v).getD TRACK_LEN_5 0 = b ∧
      (List.replicate TRACK_LEN_5 1 ++ [b, 8] ++ List.replicate 2192 v).getD
          (TRACK_LEN_5 + 1) 0 = 8 := by
    intro b v
    constructor <;>
      · rw [List.getD_eq_getElem?_getD, List.getElem?_append, List.getElem?_append]
        simp [-List.reduceReplicate, TRACK_LEN_5]
  refine ⟨hmsg miniTrackGood, hmsg miniTrackBad, ?_, ?_, ?_, ?_⟩
  · rw [show miniTrackGood = List.replicate TRACK_LEN_5 1 ++ [144, 8] ++ List.replicate 2192 0
        from rfl, hsum 144 0, (hget 144 0).1, (hget 144 0).2]
    norm_num [bytesToWord]
  · rw [show miniTrackBad = List.replicate TRACK_LEN_5 1 ++ [145, 8] ++ List.replicate 2192 0
        from rfl, hsum 145 0, (hget 145 0).1, (hget 145 0).2]
    norm_num [bytesToWord]
  · simp [readCmd, MAX_DRIVE]
  · rw [hjunk, show miniTrackJunk = List.replicate TRACK_LEN_5 1 ++ [144, 8] ++
        List.replicate 2192 9 from rfl, hsum 144 9]
    norm_num

/-- C5: for every drive number outside `[0, MAX_DRIVE)` — the sentinel 0xFF
included — both READ and WRIT fail immediately with the invalid-drive error
and write nothing to the transport. -/
theorem invalid_drive_rejected_before_transmit (driveNum trackNum trackLen : Nat)
    (finalIdx : Int) (buf tb : List Nat) (recv1 recv3 : Option (List Nat))
    (hd : ¬ driveNum < MAX_DRIVE) :
    (readCmd true driveNum trackNum trackLen finalIdx buf).writes = [] ∧
    (readCmd true driveNum trackNum trackLen finalIdx buf).msg = .invalidDrive ∧
    (writCmd true driveNum trackNum trackLen tb recv1 recv3).writes = [] ∧
    (writCmd true driveNum trackNum trackLen tb recv1 recv3).msg = .invalidDrive := by
  have hle : MAX_DRIVE ≤ driveNum := Nat.le_of_not_lt hd
  simp [readCmd, writCmd, hle]

/-- Witness for C5 at driveNum = 0xFF. -/
theorem invalid_drive_rejected_before_transmit_witness :
    (¬ (255 : Nat) < MAX_DRIVE) ∧
    ((readCmd true 255 0 TRACK_LEN_8 0 []).writes = [] ∧
     (readCmd true 255 0 TRACK_LEN_8 0 []).msg = .invalidDrive ∧
     (writCmd true 255 0 TRACK_LEN_8 [] none none).writes = [] ∧
     (writCmd true 255 0 TRACK_LEN_8 [] none none).msg = .invalidDrive) :=
  ⟨by decide,
    invalid_drive_rejected_before_transmit 255 0 TRACK_LEN_8 0 [] [] none none (by decide)⟩

/-- C6: writCmd transmits the track-data block exactly when the phase-1
response has tag "WRIT" and response code OK; on a tag mismatch it reports
the mismatch and stops, and on any non-OK code it reports the code through
the source's switch (NOT_READY / CHECKSUM_ERROR / WRITE_ERROR / unknown)
and returns without a data phase and without entering the WSTA wait. -/
theorem writ_data_phase_gated_on_ok (driveNum trackNum trackLen : Nat)
    (tb bs1 : List Nat) (recv3 : Option (List Nat))
    (hd : driveNum < MAX_DRIVE) :
    ((writCmd true driveNum trackNum trackLen tb (some bs1) recv3).writes.length = 2
      ↔ frameTag bs1 = writTag ∧ frameRcode bs1 = STAT_OK) ∧
    (frameTag bs1 ≠ writTag →
      writCmd true driveNum trackNum trackLen tb (some bs1) recv3 =
        ⟨[(writRequest trackNum driveNum trackLen).asBytes], .badWrit (frameTag bs1), false⟩) ∧
    (frameTag bs1 = writTag → frameRcode bs1 ≠ STAT_OK →
      writCmd true driveNum trackNum trackLen tb (some bs1) recv3 =
        ⟨[(writRequest trackNum driveNum trackLen).asBytes],
          .writRefused (rcodeSwitch (frameRcode bs1)), false⟩) := by
  have h4 : driveNum < 4 := hd
  have hlt : ¬ MAX_DRIVE ≤ driveNum := by
    simp only [MAX_DRIVE]; omega
  by_cases htag : frameTag bs1 = writTag
  · by_cases hok : frameRcode bs1 = STAT_OK
    · refine ⟨?_, fun h => absurd htag h, fun _ h => absurd hok h⟩
      cases recv3 with
      | none => simp [writCmd, hlt, htag, hok]
      | some bs3 =>
          by_cases h3 : frameTag bs3 = wstaTag <;> simp [writCmd, hlt, htag, hok, h3]
    · refine ⟨?_, fun h => absurd htag h, fun _ _ => ?_⟩
      · simp [writCmd, hlt, htag, hok]
      · simp [writCmd, hlt, htag, hok]
  · refine ⟨?_, fun _ => ?_, fun h => absurd h htag⟩
    · simp [writCmd, hlt, htag]
    · simp [writCmd, hlt, htag]

/-- Witness for C6: drive 0 in range, phase-1 response "WRIT"/NOT_READY. -/
theorem writ_data_phase_gated_on_ok_witness :
    (0 < MAX_DRIVE) ∧
    (((writCmd true 0 0 TRACK_LEN_5 (List.replicate TRACKBUF_LEN_CRC 0)
        (some [87, 82, 73, 84, 1, 0, 0, 0, 0, 0]) none).writes.length = 2
      ↔ frameTag [87, 82, 73, 84, 1, 0, 0, 0, 0, 0] = writTag ∧
        frameRcode [87, 82, 73, 84, 1, 0, 0, 0, 0, 0] = STAT_OK) ∧
     (frameTag [87, 82, 73, 84, 1, 0, 0, 0, 0, 0] ≠ writTag →
       writCmd true 0 0 TRACK_LEN_5 (List.replicate TRACKBUF_LEN_CRC 0)
          (some [87, 82, 73, 84, 1, 0, 0, 0, 0, 0]) none =
         ⟨[(writRequest 0 0 TRACK_LEN_5).asBytes],
           .badWrit (frameTag [87, 82, 73, 84, 1, 0, 0, 0, 0, 0]), false⟩) ∧
     (frameTag [87, 82, 73, 84, 1, 0, 0, 0, 0, 0] = writTag →
       frameRcode [87, 82, 73, 84, 1, 0, 0, 0, 0, 0] ≠ STAT_OK →
       writCmd true 0 0 TRACK_LEN_5 (List.replicate TRACKBUF_LEN_CRC 0)
          (some [87, 82, 73, 84, 1, 0, 0, 0, 0, 0]) none =
         ⟨[(writRequest 0 0 TRACK_LEN_5).asBytes],
           .writRefused (rcodeSwitch (frameRcode [87, 82, 73, 84, 1, 0, 0, 0, 0, 0])),
           false⟩)) :=
  ⟨by decide,
    writ_data_phase_gated_on_ok 0 0 TRACK_LEN_5 (List.replicate TRACKBUF_LEN_CRC 0)
      [87, 82, 73, 84, 1, 0, 0, 0, 0, 0] none (by decide)⟩

/-- C9: the Protocol Engine implicitly refreshes the session state — after a
STAT exchange the received response (whose field2 is the server-reported
drive-mount bitmap) sits in the session's `cmdBuf`, and after a READ the
session's current track number equals the track encoded in bits 0..11 of
the transmitted request's field1 (the requested track). -/
theorem session_state_refresh (driveNum trackNum trackLen : Nat)
    (headStatus : Nat → Nat) (statAuto : Bool) (bs : List Nat)
    (finalIdx : Int) (buf : List Nat) (ht : trackNum < 4096) :
    (statCmd true driveNum headStatus statAuto (some bs)).cmdBufAfter = some bs ∧
    frameRdata (((statCmd true driveNum headStatus statAuto (some bs)).cmdBufAfter).getD [])
      = frameRdata bs ∧
    (readCmd true driveNum trackNum trackLen finalIdx buf).trackNumAfter
      = (readRequest trackNum driveNum trackLen).param1 % 4096 := by
  have h1 : (statCmd true driveNum headStatus statAuto (some bs)).cmdBufAfter = some bs := by
    simp only [statCmd]
    norm_num
    split_ifs <;> rfl
  refine ⟨h1, by rw [h1]; rfl, ?_⟩
  have h2 : (readCmd true driveNum trackNum trackLen finalIdx buf).trackNumAfter = trackNum := by
    simp only [readCmd]
    norm_num
    split_ifs <;> rfl
  rw [h2]
  have hp : (readRequest trackNum driveNum trackLen).param1 = rwParam1 trackNum driveNum := rfl
  rw [hp, rwParam1, Nat.mod_mod_of_dvd _ (by norm_num : (4096 : Nat) ∣ 65536),
    lor_shift12 _ _ ht, Nat.add_mul_mod_self_right, Nat.mod_eq_of_lt ht]

/-- Witness for C9: drive 2, track 7, a STAT response reporting mount
bitmap 5 (drives 0 and 2 mounted). -/
theorem session_state_refresh_witness :
    7 < 4096 ∧
    ((statCmd true 2 (fun _ => 0) false
        (some [83, 84, 65, 84, 0, 0, 5, 0, 0, 0])).cmdBufAfter
      = some [83, 84, 65, 84, 0, 0, 5, 0, 0, 0] ∧
     frameRdata (((statCmd true 2 (fun _ => 0) false
        (some [83, 84, 65, 84, 0, 0, 5, 0, 0, 0])).cmdBufAfter).getD [])
      = frameRdata [83, 84, 65, 84, 0, 0, 5, 0, 0, 0] ∧
     (readCmd true 2 7 TRACK_LEN_8 0 []).trackNumAfter
      = (readRequest 7 2 TRACK_LEN_8).param1 % 4096) :=
  ⟨by decide,
    session_state_refresh 2 7 TRACK_LEN_8 (fun _ => 0) false
      [83, 84, 65, 84, 0, 0, 5, 0, 0, 0] 0 [] (by decide)⟩

lemma readLoop_succ (avail : Nat → Bool) (reads : Nat → Int → Int) (lim : Int)
    (fuel : Nat) (idx : Int) :
    readLoop avail reads lim (fuel + 1) idx =
      if idx + reads 0 ((TRACKBUF_LEN_CRC : Int) - idx) < lim ∧ avail 0 then
        ((readLoop (fun n => avail (n + 1)) (fun n => reads (n + 1)) lim fuel
            (idx + reads 0 ((TRACKBUF_LEN_CRC : Int) - idx))).1,
          (idx, reads 0 ((TRACKBUF_LEN_CRC : Int) - idx)) ::
            (readLoop (fun n => avail (n + 1)) (fun n => reads (n + 1)) lim fuel
              (idx + reads 0 ((TRACKBUF_LEN_CRC : Int) - idx))).2)
      else (some (idx + reads 0 ((TRACKBUF_LEN_CRC : Int) - idx)),
            [(idx, reads 0 ((TRACKBUF_LEN_CRC : Int) - idx))]) := rfl

/-- C10: in the READ bulk-receive loop, as long as each read returns a
non-negative count no larger than the requested maximum
`TRACKBUF_LEN_CRC - trkBufIdx`, every write into the track buffer (an
(offset, count) pair) stays within the buffer's 4386 declared bytes and the
accumulated index never exceeds `TRACKBUF_LEN_CRC` — for any loop bound
`lim`, in particular the minidisk bound 2194 that the index may overshoot. -/
theorem readLoop_buffer_writes_in_bounds
    (avail : Nat → Bool) (reads : Nat → Int → Int) (lim : Int) (fuel : Nat) (idx : Int)
    (hreads : ∀ n m, 0 ≤ m → 0 ≤ reads n m ∧ reads n m ≤ m)
    (h0 : 0 ≤ idx) (h1 : idx ≤ (TRACKBUF_LEN_CRC : Int)) :
    (∀ w ∈ (readLoop avail reads lim fuel idx).2,
        0 ≤ w.1 ∧ 0 ≤ w.2 ∧ w.1 + w.2 ≤ (TRACKBUF_LEN_CRC : Int)) ∧
    (∀ final, (readLoop avail reads lim fuel idx).1 = some final →
        0 ≤ final ∧ final ≤ (TRACKBUF_LEN_CRC : Int)) := by
  have hC : ((TRACKBUF_LEN_CRC : Nat) : Int) = 4386 := by
    norm_num [TRACKBUF_LEN_CRC, TRACKBUF_LEN, TRACK_LEN_8]
  revert hreads h0 h1
  induction fuel generalizing avail reads idx with
  | zero =>
      intro hreads h0 h1
      constructor
      · intro w hw
        simp [readLoop] at hw
      · intro final hf
        simp [readLoop] at hf
  | succ _ ih =>
      intro hreads h0 h1
      rw [hC] at h1
      rw [readLoop_succ, hC]
      obtain ⟨hr0, hr1⟩ := hreads 0 ((4386 : Int) - idx) (by omega)
      have hrec := ih (fun k => avail (k + 1)) (fun k => reads (k + 1))
          (idx + reads 0 ((4386 : Int) - idx))
          (fun k m hm => hreads (k + 1) m hm) (by omega) (by rw [hC]; omega)
      rw [hC] at hrec
      by_cases hc : idx + reads 0 ((4386 : Int) - idx) < lim ∧ avail 0
      · rw [if_pos hc]
        refine ⟨?_, fun final hf => hrec.2 final hf⟩
        intro w hw
        rcases List.mem_cons.mp hw with hw1 | hw2
        · subst hw1
          exact ⟨h0, hr0, by omega⟩
        · exact hrec.1 w hw2
      · rw [if_neg hc]
        refine ⟨?_, ?_⟩
        · intro w hw
          rcases List.mem_cons.mp hw with hw1 | hw2
          · subst hw1
            exact ⟨h0, hr0, by omega⟩
          · simp at hw2
        · intro final hf
          have hfe : idx + reads 0 ((4386 : Int) - idx) = final := Option.some.inj hf
          constructor <;> omega

/-- Witness for C10: reads that always return the full requested count,
minidisk bound 2194, two loop iterations from index 0 — the single write
(0, 4386) stays in bounds and the final index is 4386. -/
theorem readLoop_buffer_writes_in_bounds_witness :
    (∀ (_ : Nat) (m : Int), 0 ≤ m → 0 ≤ m ∧ m ≤ m) ∧
    ((∀ w ∈ (readLoop (fun _ => true) (fun _ m => m) ((TRACK_LEN_5 : Int) + 2) 2 0).2,
        0 ≤ w.1 ∧ 0 ≤ w.2 ∧ w.1 + w.2 ≤ (TRACKBUF_LEN_CRC : Int)) ∧
     (∀ final,
        (readLoop (fun _ => true) (fun _ m => m) ((TRACK_LEN_5 : Int) + 2) 2 0).1 = some final →
        0 ≤ final ∧ final ≤ (TRACKBUF_LEN_CRC : Int))) :=
  ⟨fun _ m hm => ⟨hm, le_refl m⟩,
    readLoop_buffer_writes_in_bounds (fun _ => true) (fun _ m => m) ((TRACK_LEN_5 : Int) + 2) 2 0
      (fun _ m hm => ⟨hm, le_refl m⟩) (by norm_num)
      (by norm_num [TRACKBUF_LEN_CRC, TRACKBUF_LEN, TRACK_LEN_8])⟩

end FdcSim
